import Mathlib

/-!
Verification of the StudentResultAnalyzer result-normalization and
derived-metrics pipeline.

The Python sources are shallowly embedded as executable Lean definitions:
  - numeric marks and grade points are modelled as rationals (the code does
    exact comparisons and arithmetic means on floats; no rounding-mode or
    overflow behaviour is relied on by any statement proved here),
  - pandas DataFrames become lists of records plus explicit column-presence
    flags (a column that pandas would report absent from `df.columns` is a
    flag set to `false`),
  - functions that `raise` or return `None` become `Option`-valued
    functions,
  - pandas `groupby` sorts group keys; the embedding groups keys in first
    appearance order instead.  Every statement proved below is independent
    of the order of the group keys (means, memberships, counts), so the two
    orders are interchangeable for these results.
-/

/-- One subject row of a semester result table, after ingestion
(`Subject`, `CA_Marks`, `ESE_Marks`, `Lab_Marks`, `Total`, `SGPA`). -/
structure SubjectRow where
  subject : String
  ca_marks : ℚ
  ese_marks : ℚ
  lab_marks : ℚ
  total : ℚ
  sgpa : ℚ
deriving Repr, DecidableEq

/-- One row of the combined analytics table: a subject row annotated with
its originating `academic_year` and `semester` label
(`PerformanceAnalytics._combine_all_data`). -/
structure CRow where
  subject : String
  ca_marks : ℚ
  ese_marks : ℚ
  lab_marks : ℚ
  total : ℚ
  sgpa : ℚ
  academic_year : String
  semester : String
deriving Repr, DecidableEq

/-- The combined table `PerformanceAnalytics.combined_data` /
`MLAnalytics.combined_data`: all rows of all semester records, plus flags
recording which of the optional numeric columns are present
(`col in df.columns` in the source). -/
structure CombinedTable where
  rows : List CRow
  hasCA : Bool
  hasESE : Bool
  hasLab : Bool
  hasTotal : Bool
  hasSGPA : Bool
deriving Repr, DecidableEq

/-- Arithmetic mean of a list of rationals (pandas `Series.mean`);
0 on the empty list only through division by zero, which no proved
statement relies on. -/
def meanQ (l : List ℚ) : ℚ := l.sum / (l.length : ℚ)

/-- Python whitespace characters, the set stripped by `str.strip` and
matched by the regex class `\s`. -/
def isPySpace (c : Char) : Bool :=
  c = ' ' || c = '\t' || c = '\n' || c = '\r' || c = '\x0b' || c = '\x0c'

/-- Model of Python `str.strip()`: remove leading and trailing whitespace. -/
def pyStrip (s : String) : String :=
  String.mk (((s.toList.dropWhile isPySpace).reverse.dropWhile isPySpace).reverse)

/-- Numeric value of a string of decimal digits (the effect of Python
`int` on a string already checked by `str.isdigit`). -/
def natOfDigits (s : String) : ℕ :=
  s.toList.foldl (fun n c => n * 10 + (c.toNat - 48)) 0

/-- Model of Python `str.isdigit` on the ASCII strings produced by the
extraction patterns: nonempty and all decimal digits. -/
def pyIsDigit (s : String) : Bool :=
  !s.toList.isEmpty && s.toList.all Char.isDigit

/-- True when the first list occurs contiguously inside the second
(Python `needle in hay` on strings). -/
def substrB (needle : List Char) : List Char → Bool
  | [] => needle.isEmpty
  | c :: t => needle.isPrefixOf (c :: t) || substrB needle t

/-- Model of `_extract_semester_number` (`analytics.py` lines 27-35 and
`ml_models.py` lines 49-56): the first maximal run of decimal digits in the
string, read as a number; 0 when the string has no digit
(`re.search` with the pattern of one or more digits). -/
def extract_semester_number (s : String) : ℕ :=
  let ds := (s.toList.dropWhile (fun c => !c.isDigit)).takeWhile Char.isDigit
  if ds.isEmpty then 0 else natOfDigits (String.mk ds)

/-- Accumulator pass of `groupFirstSGPA`: emit, for each row whose
(academic_year, semester) key has not been seen, the key and the row's
SGPA. -/
def groupFirstSGPAAux (seen : List (String × String)) : List CRow → List (String × String × ℚ)
  | [] => []
  | r :: rs =>
      if seen.contains (r.academic_year, r.semester) then groupFirstSGPAAux seen rs
      else (r.academic_year, r.semester, r.sgpa) ::
        groupFirstSGPAAux ((r.academic_year, r.semester) :: seen) rs

/-- Model of `combined_data.groupby(['academic_year','semester'])['SGPA'].first()`:
for each (academic_year, semester) key, the SGPA of the first row of the
group.  Keys are listed in first-appearance order; pandas lists them in
sorted order, but every statement proved about this function is
order-independent. -/
def groupFirstSGPA (rows : List CRow) : List (String × String × ℚ) :=
  groupFirstSGPAAux [] rows

/-- Model of `PerformanceAnalytics.get_average_sgpa` (`analytics.py`
lines 37-49): 0 when the table is empty or the SGPA column is absent;
otherwise the mean of the per-semester first SGPA values that are
strictly positive, or 0 when none are. -/
def get_average_sgpa (t : CombinedTable) : ℚ :=
  if t.rows.isEmpty || !t.hasSGPA then 0
  else
    let valid := (groupFirstSGPA t.rows).filter (fun p => decide (0 < p.2.2))
    if valid.isEmpty then 0 else meanQ (valid.map (fun p => p.2.2))

/-- The first-maximum element of a list under the strict comparison
`cmp a b = true` meaning `a` beats `b` (`Series.idxmax` / `idxmin` keep
the first occurrence of the extremum). -/
def firstBest (cmp : ℚ → ℚ → Bool) : List (String × String × ℚ) → Option (String × String × ℚ)
  | [] => none
  | x :: xs => some (xs.foldl (fun b a => if cmp a.2.2 b.2.2 then a else b) x)

/-- Model of `PerformanceAnalytics.get_best_semester` (`analytics.py`
lines 60-75): among per-semester first SGPA values that are strictly
positive, the key of the maximal one formatted as "year - semester",
"N/A" when the table is empty, the column is absent, or no value is
positive. -/
def get_best_semester (t : CombinedTable) : String :=
  if t.rows.isEmpty || !t.hasSGPA then "N/A"
  else
    let valid := (groupFirstSGPA t.rows).filter (fun p => decide (0 < p.2.2))
    match firstBest (fun a b => b < a) valid with
    | none => "N/A"
    | some p => p.1 ++ " - " ++ p.2.1

/-- Model of `PerformanceAnalytics.get_worst_semester` (`analytics.py`
lines 77-92): as `get_best_semester` with the minimal value. -/
def get_worst_semester (t : CombinedTable) : String :=
  if t.rows.isEmpty || !t.hasSGPA then "N/A"
  else
    let valid := (groupFirstSGPA t.rows).filter (fun p => decide (0 < p.2.2))
    match firstBest (fun a b => a < b) valid with
    | none => "N/A"
    | some p => p.1 ++ " - " ++ p.2.1

/-- Counts returned by `get_performance_categories`. -/
structure Categories where
  high : ℕ
  medium : ℕ
  low : ℕ
deriving Repr, DecidableEq

/-- Model of `PerformanceAnalytics.get_performance_categories`
(`analytics.py` lines 163-183): counts of rows with Total at least 75,
in [50, 75), and below 50; all zero when the table is empty or the Total
column is absent. -/
def get_performance_categories (t : CombinedTable) : Categories :=
  if t.rows.isEmpty || !t.hasTotal then ⟨0, 0, 0⟩
  else
    ⟨(t.rows.filter (fun r => decide (75 ≤ r.total))).length,
     (t.rows.filter (fun r => decide (50 ≤ r.total) && decide (r.total < 75))).length,
     (t.rows.filter (fun r => decide (r.total < 50))).length⟩

/-- Number of the four clustering/statistics feature columns
(`CA_Marks`, `ESE_Marks`, `Lab_Marks`, `Total`) present in the table
(`available_cols` in `analytics.py` and `ml_models.py`). -/
def availCount (t : CombinedTable) : ℕ :=
  (if t.hasCA then 1 else 0) + (if t.hasESE then 1 else 0) +
    (if t.hasLab then 1 else 0) + (if t.hasTotal then 1 else 0)

/-- Round to the nearest integer, ties to even (numpy rounding used by
`DataFrame.round`). -/
def roundHalfEven (q : ℚ) : ℤ :=
  let f := ⌊q⌋
  let r := q - (f : ℚ)
  if r < 1 / 2 then f
  else if 1 / 2 < r then f + 1
  else if f % 2 = 0 then f else f + 1

/-- Round to 2 decimal places, ties to even (`DataFrame.round(2)`). -/
def round2 (q : ℚ) : ℚ := (roundHalfEven (q * 100) : ℚ) / 100

/-- Accumulator pass of `groupTotalsBySubject`: emit, for each row whose
subject has not been seen, the subject and the Total values of all its
rows. -/
def groupTotalsAux (seen : List String) : List CRow → List (String × List ℚ)
  | [] => []
  | r :: rs =>
      if seen.contains r.subject then groupTotalsAux seen rs
      else (r.subject,
        r.total :: (rs.filter (fun x => x.subject == r.subject)).map (fun x => x.total)) ::
        groupTotalsAux (r.subject :: seen) rs

/-- The Total values of the rows of each subject group, keys in first
appearance order (pandas sorts the keys; every statement proved below is
order-independent). -/
def groupTotalsBySubject (rows : List CRow) : List (String × List ℚ) :=
  groupTotalsAux [] rows

/-- The Total column of `PerformanceAnalytics.get_subject_wise_average`
(`analytics.py` lines 102-117): per-subject mean of Total, rounded to two
decimals.  Only this column and the emptiness of the result are consumed
downstream (`get_improvement_suggestions`), so the embedding records the
Total means; the result is empty exactly when the source result is the
empty DataFrame (empty table or no available numeric column). -/
def subject_wise_average_total (t : CombinedTable) : List (String × ℚ) :=
  if t.rows.isEmpty || availCount t = 0 then []
  else (groupTotalsBySubject t.rows).map (fun p => (p.1, round2 (meanQ p.2)))

/-- Model of `PerformanceAnalytics.get_improvement_suggestions`
(`analytics.py` lines 199-238), the three heuristics on a nonempty table:
CA-versus-ESE balance, weak subjects below the mean of the per-subject
rounded Total averages (first three in group order), and the average
grade-point tier. -/
def suggestionsCore (t : CombinedTable) : List String :=
  let s1 : List String :=
    if t.hasCA && t.hasESE then
      let avg_ca := meanQ (t.rows.map (fun r => r.ca_marks))
      let avg_ese := meanQ (t.rows.map (fun r => r.ese_marks))
      if avg_ca < avg_ese then
        ["Focus on continuous assessment - your ESE performance is better than CA"]
      else if avg_ese < avg_ca then
        ["Prepare more for end semester exams - your CA performance is strong"]
      else []
    else []
  let s2 : List String :=
    if !(subject_wise_average_total t).isEmpty && t.hasTotal then
      let sa := subject_wise_average_total t
      let m := meanQ (sa.map (fun p => p.2))
      let weak := sa.filter (fun p => decide (p.2 < m))
      if weak.isEmpty then []
      else ["Focus on improving: " ++ String.intercalate ", " ((weak.map (fun p => p.1)).take 3)]
    else []
  let s3 : List String :=
    let avg := get_average_sgpa t
    if 0 < avg then
      if avg < 6 then ["Consider studying strategies to improve overall SGPA"]
      else if 8 ≤ avg then ["Excellent performance! Maintain consistency across all subjects"]
      else []
    else []
  s1 ++ s2 ++ s3

/-- Model of `PerformanceAnalytics.get_improvement_suggestions`
(`analytics.py` lines 199-238): the fallback message on the empty table
(the same message as the internal-error handler of the source), the
heuristics otherwise, and the generic encouragement when no heuristic
fires. -/
def get_improvement_suggestions (t : CombinedTable) : List String :=
  if t.rows.isEmpty then ["Upload more data to get personalized suggestions"]
  else
    let s := suggestionsCore t
    if s.isEmpty then
      ["Keep up the good work! Continue consistent performance across all subjects"]
    else s

/-- One stored semester record (`db.py`): the key fields and the saved
rows (the `uploaded_at` timestamp carries no information used by any
statement proved here and is omitted). -/
structure SemRecord where
  academic_year : String
  semester : String
  rows : List SubjectRow
deriving Repr, DecidableEq

/-- Model of `DatabaseManager.save_results` (`db.py` lines 52-84) on one
user's record list: replace the first record with the same
(academic_year, semester) key, or append when no record has the key.
The JSON persistence (`save_data`) only serializes the state and is
omitted. -/
def save_results (data : List SemRecord) (y s : String) (rows : List SubjectRow) : List SemRecord :=
  match data with
  | [] => [⟨y, s, rows⟩]
  | r :: rs =>
      if r.academic_year == y && r.semester == s then ⟨y, s, rows⟩ :: rs
      else r :: save_results rs y s rows

/-- Number of records in the list carrying the given key. -/
def countKey (data : List SemRecord) (y s : String) : ℕ :=
  (data.filter (fun r => r.academic_year == y && r.semester == s)).length

/-- One row of the `student_results` table of the PostgreSQL backend
(`database.py`). -/
structure PGRow where
  username : String
  academic_year : String
  semester : String
  row : SubjectRow
deriving Repr, DecidableEq

/-- True when the stored row carries the given (username, academic_year,
semester) key. -/
def pgKeyEq (u y s : String) (r : PGRow) : Bool :=
  r.username == u && r.academic_year == y && r.semester == s

/-- Model of `PostgreSQLManager.save_results` (`database.py` lines
202-266): delete every stored row with the (username, academic_year,
semester) key, then insert one row per subject row of the frame. -/
def pg_save_results (store : List PGRow) (u y s : String) (rows : List SubjectRow) : List PGRow :=
  store.filter (fun r => !pgKeyEq u y s r) ++ rows.map (fun r => ⟨u, y, s, r⟩)

/-- The stored subject rows for one (username, academic_year, semester)
key. -/
def pgRowsFor (store : List PGRow) (u y s : String) : List SubjectRow :=
  (store.filter (pgKeyEq u y s)).map (fun r => r.row)

/-- A user's uploaded semester records (`user_data` in the source), the
input of `PerformanceAnalytics` for the record-wise operations.  The
ingestion adapters guarantee every stored frame carries all six columns,
so the records carry no column-presence flags. -/
def UserData : Type := List SemRecord

/-- All subject rows of all records, the row content of
`_combine_all_data`; the combined frame is empty exactly when this list
is empty. -/
def combinedSubjectRows (ud : List SemRecord) : List SubjectRow :=
  ud.flatMap (fun r => r.rows)

/-- The per-record SGPA of `get_semester_wise_performance` (`analytics.py`
line 137): the first row's SGPA, or 0 when the record has no rows. -/
def recordSGPA (r : SemRecord) : ℚ :=
  match r.rows with
  | [] => 0
  | x :: _ => x.sgpa

/-- Sort by the numeric key, ascending (the source uses
`DataFrame.sort_values('Semester_Num')`, whose order among equal keys is
unspecified; the statements proved below speak about the order this sort
produces). -/
def sortByNum (l : List (ℕ × ℚ)) : List (ℕ × ℚ) :=
  l.insertionSort (fun a b => a.1 ≤ b.1)

/-- The (extracted semester number, record SGPA) pair of each record,
sorted by semester number ascending. -/
def sortedTrendPairs (ud : List SemRecord) : List (ℕ × ℚ) :=
  sortByNum (ud.map (fun r => (extract_semester_number r.semester, recordSGPA r)))

/-- The per-semester grade-point sequence of `get_trend_analysis`: one
value per record, in sorted semester-number order. -/
def trendPoints (ud : List SemRecord) : List ℚ :=
  (sortedTrendPairs ud).map (fun p => p.2)

/-- Result dictionary of `get_trend_analysis`. -/
structure TrendResult where
  sgpa_values : List ℚ
  recent_trend : String
  overall_trend : String
  best_sgpa : ℚ
  worst_sgpa : ℚ
  average_sgpa : ℚ
deriving Repr, DecidableEq

/-- Maximum of a list of rationals with default 0 (Python `max` on the
nonempty lists it is applied to). -/
def listMaxQ (l : List ℚ) : ℚ :=
  match l with
  | [] => 0
  | x :: xs => xs.foldl max x

/-- Minimum of a list of rationals with default 0. -/
def listMinQ (l : List ℚ) : ℚ :=
  match l with
  | [] => 0
  | x :: xs => xs.foldl min x

/-- Model of `PerformanceAnalytics.get_trend_analysis` (`analytics.py`
lines 240-276): none (the empty dictionary) when the combined table is
empty; otherwise trends over the semester-number-sorted grade-point
sequence, with "improving"/"declining" decided by strict comparison of
the last value against the second-to-last (recent) and the first
(overall), and both trends "stable" with fewer than two points. -/
def get_trend_analysis (ud : List SemRecord) : Option TrendResult :=
  if (combinedSubjectRows ud).isEmpty then none
  else
    let pts := trendPoints ud
    let recent :=
      if 2 ≤ pts.length then
        if (pts.dropLast).getLastD 0 < pts.getLastD 0 then "improving" else "declining"
      else "stable"
    let overall :=
      if 2 ≤ pts.length then
        if pts.headD 0 < pts.getLastD 0 then "improving" else "declining"
      else "stable"
    some ⟨pts, recent, overall, listMaxQ pts, listMinQ pts, meanQ pts⟩

/-- Maximum of a list of naturals (Python `max` over the semester
numbers; the list is nonempty where used). -/
def listMaxNat (l : List ℕ) : ℕ := l.foldl max 0

/-- Model of `MLAnalytics.predict_sgpa` (`ml_models.py` lines 136-209):
none when the table is empty, the SGPA column is absent, or fewer than
two (academic_year, semester) groups exist; otherwise the ordinary
least-squares line through (semester number, first SGPA of the group),
evaluated at one past the maximal semester number and clamped to [0, 10].
When every semester number is equal the centred least-squares system is
singular and the fitted line is the constant mean (`sklearn`
`LinearRegression` via `lstsq`, minimum-norm solution).  The source sorts
the groups by semester number before fitting, which changes none of the
sums nor the maximum and is omitted here. -/
def predict_sgpa (t : CombinedTable) : Option ℚ :=
  if t.rows.isEmpty || !t.hasSGPA then none
  else
    let pts := groupFirstSGPA t.rows
    if pts.length < 2 then none
    else
      let xs : List ℚ := pts.map (fun p => (extract_semester_number p.2.1 : ℚ))
      let ys : List ℚ := pts.map (fun p => p.2.2)
      let n : ℚ := (pts.length : ℚ)
      let sx := xs.sum
      let sy := ys.sum
      let sxy := ((xs.zip ys).map (fun p => p.1 * p.2)).sum
      let sxx := (xs.map (fun x => x * x)).sum
      let den := n * sxx - sx * sx
      let slope := if den = 0 then 0 else (n * sxy - sx * sy) / den
      let intercept := (sy - slope * sx) / n
      let next_semester : ℚ := (listMaxNat (pts.map (fun p => extract_semester_number p.2.1)) : ℚ) + 1
      some (max 0 (min 10 (intercept + slope * next_semester)))

/-- Accumulator pass of `distinctSubjects`: the not-yet-seen strings, in
first-appearance order. -/
def distinctAux (seen : List String) : List String → List String
  | [] => []
  | s :: rest =>
      if seen.contains s then distinctAux seen rest
      else s :: distinctAux (s :: seen) rest

/-- The distinct subjects of the combined table, in first-appearance
order (`groupby('Subject')` group count). -/
def distinctSubjects (rows : List CRow) : List String :=
  distinctAux [] (rows.map (fun r => r.subject))

/-- Model of `MLAnalytics.perform_clustering` (`ml_models.py` lines
58-134), up to its observable outcome: none (the raised failure) when the
table is empty, fewer than two feature columns are present, or fewer than
three distinct subjects exist; none also when the Total column is absent,
because the cluster-summary loop reads the Total column of the
subject-aggregated frame and its absence raises a KeyError caught by the
same failure path; otherwise the number of clusters, `min 3` of the
subject count.  The k-means fit itself (fixed seed, ten initializations)
determines only the cluster memberships, which no claim concerns, and is
not modelled beyond the cluster count. -/
def perform_clustering (t : CombinedTable) : Option ℕ :=
  if t.rows.isEmpty then none
  else if availCount t < 2 then none
  else if (distinctSubjects t.rows).length < 3 then none
  else if !t.hasTotal then none
  else some (min 3 (distinctSubjects t.rows).length)

/-- Unsigned decimal literal: digits, optionally a dot and digits, with
at least one digit overall. -/
def parseUnsignedDec (cs : List Char) : Option ℚ :=
  let ip := cs.takeWhile Char.isDigit
  match cs.drop ip.length with
  | [] => if ip.isEmpty then none else some ((natOfDigits (String.mk ip) : ℚ))
  | '.' :: fp =>
      if fp.all Char.isDigit && !(ip.isEmpty && fp.isEmpty) then
        some ((natOfDigits (String.mk ip) : ℚ) +
          (natOfDigits (String.mk fp) : ℚ) / ((10 : ℚ) ^ fp.length))
      else none
  | _ => none

/-- Model of numeric coercion of one cell string
(`pd.to_numeric(..., errors='coerce')`): optional surrounding whitespace,
optional sign, decimal literal; none when the string does not parse.
Scientific notation, accepted by pandas, is omitted; no statement proved
here depends on which well-formed numerals are accepted, only on
ill-formed ones coercing to none. -/
def parseNumQ (s : String) : Option ℚ :=
  let cs := (((s.toList.dropWhile isPySpace).reverse.dropWhile isPySpace).reverse)
  match cs with
  | '-' :: rest => (parseUnsignedDec rest).map (fun q => -q)
  | '+' :: rest => parseUnsignedDec rest
  | _ => parseUnsignedDec cs

/-- Total numeric coercion of a cell
(`pd.to_numeric(..., errors='coerce').fillna(0)`): a missing cell (none,
pandas NaN) or an unparseable string becomes 0. -/
def coerceNum (c : Option String) : ℚ :=
  match c with
  | none => 0
  | some str => (parseNumQ str).getD 0

/-- One raw row of an uploaded tabular file: the subject cell (none when
the cell is missing, pandas NaN) and the five optional numeric cells. -/
structure RawRow where
  subject : Option String
  ca : Option String
  ese : Option String
  lab : Option String
  tot : Option String
  sg : Option String
deriving Repr, DecidableEq

/-- A raw uploaded tabular file: which of the recognized columns the
header carries, and the cell rows. -/
structure RawCSV where
  hasSubject : Bool
  hasCA : Bool
  hasESE : Bool
  hasLab : Bool
  hasTotal : Bool
  hasSGPA : Bool
  rows : List RawRow
deriving Repr, DecidableEq

/-- Value of one numeric column cell after ingestion: a column absent
from the header is inserted with value 0, a present column is coerced
totally. -/
def ingestCell (present : Bool) (c : Option String) : ℚ :=
  if present then coerceNum c else 0

/-- The cleaned output row for one raw row, none when the row is dropped
for a missing or blank-after-strip subject. -/
def cleanRow (f : RawCSV) (r : RawRow) : Option SubjectRow :=
  match r.subject with
  | none => none
  | some s =>
      if pyStrip s = "" then none
      else
        some ⟨s, ingestCell f.hasCA r.ca, ingestCell f.hasESE r.ese,
          ingestCell f.hasLab r.lab, ingestCell f.hasTotal r.tot,
          ingestCell f.hasSGPA r.sg⟩

/-- Model of `parse_csv_file` (`utils.py` lines 13-49): none when the
required Subject column is absent; otherwise insert each absent optional
column with value 0, coerce the five numeric columns totally, and drop
the rows whose subject cell is missing or blank after stripping. -/
def parse_csv_file (f : RawCSV) : Option (List SubjectRow) :=
  if !f.hasSubject then none
  else some (f.rows.filterMap (cleanRow f))

/-- Abstract syntax of the regular expressions used by
`extract_results_from_text` (`utils.py` lines 79-89): single-character
classes, greedy and lazy stars of a class, a greedy optional character,
concatenation, and numbered capture groups. -/
inductive RE where
  | eps : RE
  | one (p : Char → Bool) : RE
  | starG (p : Char → Bool) : RE
  | starL (p : Char → Bool) : RE
  | optC (p : Char → Bool) : RE
  | seq (a b : RE) : RE
  | grp (n : ℕ) (a : RE) : RE

/-- Backtracking matcher: all ways the expression can match a prefix of
the input, as (remaining input, captures), listed in the preference order
of the Python `re` engine (greedy constructs longest-consumed first, lazy
ones shortest first, concatenation lexicographic). -/
def mrun : RE → List Char → List (List Char × List (ℕ × String))
  | .eps, s => [(s, [])]
  | .one _, [] => []
  | .one p, c :: r => if p c then [(r, [])] else []
  | .starG p, s =>
      let n := (s.takeWhile p).length
      (List.range (n + 1)).map (fun i => (s.drop (n - i), []))
  | .starL p, s =>
      let n := (s.takeWhile p).length
      (List.range (n + 1)).map (fun i => (s.drop i, []))
  | .optC p, s =>
      (match s with
       | c :: r => if p c then [(r, ([] : List (ℕ × String)))] else []
       | [] => []) ++ [(s, [])]
  | .seq a b, s =>
      (mrun a s).flatMap (fun pr => (mrun b pr.1).map (fun qr => (qr.1, pr.2 ++ qr.2)))
  | .grp n a, s =>
      (mrun a s).map (fun pr => (pr.1, (n, String.mk (s.take (s.length - pr.1.length))) :: pr.2))

/-- Model of Python `re.search`: the highest-preference match at the
leftmost starting position admitting one, returning its captures. -/
def research (r : RE) : List Char → Option (List (ℕ × String))
  | [] =>
      match mrun r [] with
      | m :: _ => some m.2
      | [] => none
  | c :: rest =>
      match mrun r (c :: rest) with
      | m :: _ => some m.2
      | [] => research r rest

/-- One-or-more repetition of a character class, greedy. -/
def plusRE (p : Char → Bool) : RE := .seq (.one p) (.starG p)

/-- Concatenation of a list of expressions. -/
def seqAll (l : List RE) : RE := l.foldr RE.seq RE.eps

/-- The character class of the pattern fragment matching letters and
whitespace. -/
def isAlphaSp (c : Char) : Bool := c.isAlpha || isPySpace c

/-- The class of the regex dot: any character but a newline. -/
def anyCh (c : Char) : Bool := c ≠ '\n'

/-- Capture group for a decimal numeral: digits, an optional dot, then
optional digits. -/
def decGroupRE (n : ℕ) : RE :=
  .grp n (seqAll [plusRE Char.isDigit, .optC (fun c => c = '.'), .starG Char.isDigit])

/-- Row pattern 1 of `extract_results_from_text` (`utils.py` line 81):
subject words, four integers, and a decimal grade point. -/
def pat1 : RE :=
  seqAll [.grp 1 (plusRE isAlphaSp), plusRE isPySpace,
    .grp 2 (plusRE Char.isDigit), plusRE isPySpace,
    .grp 3 (plusRE Char.isDigit), plusRE isPySpace,
    .grp 4 (plusRE Char.isDigit), plusRE isPySpace,
    .grp 5 (plusRE Char.isDigit), plusRE isPySpace, decGroupRE 6]

/-- Row pattern 2 (`utils.py` line 83): subject words and four
integers. -/
def pat2 : RE :=
  seqAll [.grp 1 (plusRE isAlphaSp), plusRE isPySpace,
    .grp 2 (plusRE Char.isDigit), plusRE isPySpace,
    .grp 3 (plusRE Char.isDigit), plusRE isPySpace,
    .grp 4 (plusRE Char.isDigit), plusRE isPySpace,
    .grp 5 (plusRE Char.isDigit)]

/-- Row pattern 3 (`utils.py` line 85): subject words and four integer
tokens separated by arbitrary text. -/
def pat3 : RE :=
  seqAll [.grp 1 (plusRE isAlphaSp), .starL anyCh,
    .grp 2 (plusRE Char.isDigit), .starL anyCh,
    .grp 3 (plusRE Char.isDigit), .starL anyCh,
    .grp 4 (plusRE Char.isDigit), .starL anyCh,
    .grp 5 (plusRE Char.isDigit)]

/-- The document-level grade-point pattern (`utils.py` line 89): the
token SGPA, case-insensitively, then optional colons and whitespace,
then a decimal numeral. -/
def sgpaTokenRE : RE :=
  seqAll [.one (fun c => c.toLower = 's'), .one (fun c => c.toLower = 'g'),
    .one (fun c => c.toLower = 'p'), .one (fun c => c.toLower = 'a'),
    .starG (fun c => c = ':' || isPySpace c), decGroupRE 1]

/-- The capture of the group with the given number, none when the
pattern has no such group. -/
def getGroup (caps : List (ℕ × String)) (n : ℕ) : Option String :=
  (caps.find? (fun p => p.1 == n)).map (fun p => p.2)

/-- An integer mark field: the capture read as an integer when it is all
digits, 0 otherwise.  Every row pattern captures groups 1 through 5, so
the missing-group branch is unreachable. -/
def intField (caps : List (ℕ × String)) (n : ℕ) : ℚ :=
  match getGroup caps n with
  | some g => if pyIsDigit g then ((natOfDigits g : ℚ)) else 0
  | none => 0

/-- Model of the validity test applied to the sixth capture
(`groups[5].replace('.', '').isdigit()`): all digits once the dots are
removed, and at least one digit. -/
def pyValidDec (s : String) : Bool :=
  pyIsDigit (String.mk (s.toList.filter (fun c => c ≠ '.')))

/-- Model of Python `float` on the captured numerals (digits with at
most one dot, as produced by the decimal-group pattern). -/
def parseFloatDec (s : String) : ℚ := (parseUnsignedDec s.toList).getD 0

/-- The subject row built from the captures of a successful match
(`utils.py` lines 108-128): integer CA/ESE/Lab marks with 0 for a
non-digit capture, the fifth capture as Total when present and all
digits with the sum of the three marks otherwise, and the sixth capture
as grade point when a valid decimal with the document-level default
otherwise. -/
def mkRow (caps : List (ℕ × String)) (default : ℚ) : SubjectRow :=
  let subject := pyStrip ((getGroup caps 1).getD "")
  let ca := intField caps 2
  let ese := intField caps 3
  let lab := intField caps 4
  let tot :=
    match getGroup caps 5 with
    | some g => if pyIsDigit g then ((natOfDigits g : ℚ)) else ca + ese + lab
    | none => ca + ese + lab
  let sg :=
    match getGroup caps 6 with
    | some g => if pyValidDec g then parseFloatDec g else default
    | none => default
  ⟨subject, ca, ese, lab, tot, sg⟩

/-- The header keywords whose presence in the subject capture rejects a
match (`utils.py` line 110). -/
def headerWords : List String := ["subject", "course", "marks", "total", "sgpa"]

/-- Lower-case a character list (Python `str.lower` on the ASCII
subjects the patterns capture). -/
def lowerList (cs : List Char) : List Char := cs.map Char.toLower

/-- True when the stripped subject capture contains a header keyword,
case-insensitively. -/
def isHeaderSubject (s : String) : Bool :=
  headerWords.any (fun w => substrB w.toList (lowerList s.toList))

/-- The row one pattern yields on a line: none when the pattern does not
match or the subject capture is header-like (in the source the header
case falls through to the next pattern). -/
def rowFromPat (p : RE) (default : ℚ) (l : String) : Option SubjectRow :=
  match research p l.toList with
  | none => none
  | some caps =>
      if isHeaderSubject (pyStrip ((getGroup caps 1).getD "")) then none
      else some (mkRow caps default)

/-- Per-line extraction (`utils.py` lines 97-129): strip the line, skip
it when shorter than 10 characters, and try the three patterns in order,
the first one yielding a non-header match winning. -/
def processLine (default : ℚ) (line : String) : Option SubjectRow :=
  if (pyStrip line).length < 10 then none
  else
    match rowFromPat pat1 default (pyStrip line) with
    | some r => some r
    | none =>
        match rowFromPat pat2 default (pyStrip line) with
        | some r => some r
        | none => rowFromPat pat3 default (pyStrip line)

/-- The document-level grade-point default (`utils.py` lines 89-94): the
first capture of the SGPA token pattern, 0 when the pattern does not
occur. -/
def sgpaDefault (text : String) : ℚ :=
  match research sgpaTokenRE text.toList with
  | some caps =>
      match getGroup caps 1 with
      | some g => parseFloatDec g
      | none => 0
  | none => 0

/-- Split a character list at newline characters (Python
`text.split('\n')`). -/
def splitLinesAux : List Char → List Char → List String
  | [], acc => [String.mk acc.reverse]
  | c :: rest, acc =>
      if c = '\n' then String.mk acc.reverse :: splitLinesAux rest []
      else splitLinesAux rest (c :: acc)

/-- The lines of a text, split at newlines (Python `text.split('\n')`). -/
def splitLines (text : String) : List String := splitLinesAux text.toList []

/-- Model of `extract_results_from_text` (`utils.py` lines 72-141):
process every line of the text with the document-level default, and
return none (the no-result signal) when no line yields a row. -/
def extract_results_from_text (text : String) : Option (List SubjectRow) :=
  let d := sgpaDefault text
  let results := (splitLines text).filterMap (processLine d)
  if results.isEmpty then none else some results

lemma countKey_zero_not_mem {data : List SemRecord} {y s : String}
    (h : countKey data y s = 0) :
    ∀ r ∈ data, ¬(r.academic_year == y && r.semester == s) = true := by
  intro r hr hk
  have : r ∈ data.filter (fun r => r.academic_year == y && r.semester == s) :=
    List.mem_filter.mpr ⟨hr, hk⟩
  rw [List.length_eq_zero.mp h] at this
  exact absurd this (List.not_mem_nil r)

lemma db_double_save (data : List SemRecord) (y s : String) (A B : List SubjectRow)
    (h : countKey data y s ≤ 1) :
    countKey (save_results (save_results data y s A) y s B) y s = 1 ∧
      ∀ r ∈ save_results (save_results data y s A) y s B,
        r.academic_year = y → r.semester = s → r.rows = B := by
  induction data with
  | nil =>
      simp [save_results, countKey]
  | cons r rs ih =>
      by_cases hk : (r.academic_year == y && r.semester == s) = true
      · have hrs : countKey rs y s = 0 := by
          have : countKey (r :: rs) y s = countKey rs y s + 1 := by
            simp [countKey, List.filter_cons, hk]
          omega
        simp only [save_results, hk, if_pos]
        have hyy : ((⟨y, s, A⟩ : SemRecord).academic_year == y &&
            (⟨y, s, A⟩ : SemRecord).semester == s) = true := by simp
        simp only [save_results, hyy, if_pos]
        constructor
        · have hstep : countKey (⟨y, s, B⟩ :: rs) y s = countKey rs y s + 1 := by
            simp [countKey, List.filter_cons]
          omega
        · intro x hx hxy hxs
          rcases List.mem_cons.mp hx with rfl | h2
          · rfl
          · exact absurd (by simp [hxy, hxs]) (countKey_zero_not_mem hrs x h2)
      · have hle : countKey rs y s ≤ 1 := by
          have : countKey (r :: rs) y s = countKey rs y s := by
            simp [countKey, List.filter_cons, hk]
          omega
        have ihh := ih hle
        simp only [save_results, hk, if_neg, Bool.false_eq_true, not_false_iff]
        constructor
        · simp only [countKey, List.filter_cons, hk]
          exact ihh.1
        · intro x hx hxy hxs
          rcases List.mem_cons.mp hx with rfl | h2
          · exact absurd (by simp [hxy, hxs]) hk
          · exact ihh.2 x h2 hxy hxs

lemma pg_double_save (store : List PGRow) (u y s : String) (A B : List SubjectRow) :
    pgRowsFor (pg_save_results (pg_save_results store u y s A) u y s B) u y s = B := by
  unfold pgRowsFor pg_save_results
  rw [List.filter_append]
  have h1 : ∀ (l : List PGRow),
      (l.filter (fun r => !pgKeyEq u y s r)).filter (pgKeyEq u y s) = [] := by
    intro l
    rw [List.filter_filter]
    apply List.filter_eq_nil_iff.mpr
    intro a _
    simp
  rw [h1]
  have h2 : (B.map (fun r => (⟨u, y, s, r⟩ : PGRow))).filter (pgKeyEq u y s) =
      B.map (fun r => (⟨u, y, s, r⟩ : PGRow)) := by
    apply List.filter_eq_self.mpr
    intro a ha
    rcases List.mem_map.mp ha with ⟨b, _, hb⟩
    rw [← hb]
    simp [pgKeyEq]
  rw [List.nil_append, h2, List.map_map]
  rw [show ((fun r : PGRow => r.row) ∘ fun r => (⟨u, y, s, r⟩ : PGRow)) = id from rfl,
    List.map_id]

/-- C2: saving row set A and then row set B for the same (user, year,
term) key leaves exactly one stored record for that key, holding exactly
B's rows.  For the flat-file backend (`db.py`, one list per user, so the
user key is the list itself) this holds from every state respecting the
store's uniqueness invariant of at most one record per key; for the
PostgreSQL backend (`database.py`, user part of the row key) it holds
from every state. -/
theorem claim_C2_upsert_replaces (data : List SemRecord) (store : List PGRow)
    (u y s : String) (A B : List SubjectRow) (h : countKey data y s ≤ 1) :
    (countKey (save_results (save_results data y s A) y s B) y s = 1 ∧
      ∀ r ∈ save_results (save_results data y s A) y s B,
        r.academic_year = y → r.semester = s → r.rows = B) ∧
    pgRowsFor (pg_save_results (pg_save_results store u y s A) u y s B) u y s = B :=
  ⟨db_double_save data y s A B h, pg_double_save store u y s A B⟩

/-- Example row sets for the C2 witness. -/
def rowsA : List SubjectRow := [⟨"Math", 10, 20, 0, 30, 7⟩]

/-- Second example row set for the C2 witness. -/
def rowsB : List SubjectRow := [⟨"Phys", 5, 10, 0, 15, 8⟩, ⟨"Chem", 1, 2, 3, 6, 8⟩]

/-- Witness for C2 at a concrete empty store. -/
theorem claim_C2_witness :
    countKey [] "2024-25" "Semester 1" ≤ 1 ∧
    ((countKey (save_results (save_results [] "2024-25" "Semester 1" rowsA)
        "2024-25" "Semester 1" rowsB) "2024-25" "Semester 1" = 1 ∧
      ∀ r ∈ save_results (save_results [] "2024-25" "Semester 1" rowsA)
          "2024-25" "Semester 1" rowsB,
        r.academic_year = "2024-25" → r.semester = "Semester 1" → r.rows = rowsB) ∧
    pgRowsFor (pg_save_results (pg_save_results [] "alice" "2024-25" "Semester 1" rowsA)
      "alice" "2024-25" "Semester 1" rowsB) "alice" "2024-25" "Semester 1" = rowsB) :=
  ⟨by decide, claim_C2_upsert_replaces [] [] "alice" "2024-25" "Semester 1" rowsA rowsB
    (by decide)⟩

/-- C5: with at least two (academic_year, semester) grade-point groups
the forecasting operation succeeds and its forecast scalar lies in the
closed interval [0, 10], whatever value the fitted least-squares line
takes at one past the maximal semester number. -/
theorem claim_C5_forecast_clamped (t : CombinedTable) (h1 : t.hasSGPA = true)
    (h2 : 2 ≤ (groupFirstSGPA t.rows).length) :
    ∃ q, predict_sgpa t = some q ∧ 0 ≤ q ∧ q ≤ 10 := by
  have hrne : t.rows ≠ [] := by
    intro hr
    rw [hr] at h2
    simp [groupFirstSGPA, groupFirstSGPAAux] at h2
  have hEmpty : t.rows.isEmpty = false := by
    cases h : t.rows with
    | nil => exact absurd h hrne
    | cons a l => rfl
  unfold predict_sgpa
  rw [hEmpty, h1]
  simp only [Bool.not_true, Bool.or_false]
  rw [if_neg (by simp)]
  rw [if_neg (by omega)]
  exact ⟨_, rfl, le_max_left _ _, max_le (by norm_num) (min_le_left _ _)⟩

/-- Example table for the C5 witness: two semesters with steeply
declining grade points 9 then 1; the fitted line extrapolates to -7 at
the next semester and the forecast is clamped to 0. -/
def tForecast : CombinedTable :=
  ⟨[⟨"Math", 0, 0, 0, 0, 9, "2023-24", "Semester 1"⟩,
    ⟨"Math", 0, 0, 0, 0, 1, "2023-24", "Semester 2"⟩], true, true, true, true, true⟩

/-- Witness for C5 at the steeply declining two-semester table. -/
theorem claim_C5_witness :
    tForecast.hasSGPA = true ∧ 2 ≤ (groupFirstSGPA tForecast.rows).length ∧
      ∃ q, predict_sgpa tForecast = some q ∧ 0 ≤ q ∧ q ≤ 10 :=
  ⟨rfl, by decide, claim_C5_forecast_clamped tForecast rfl (by decide)⟩

/-- C6: the clustering operation fails (raises, caught as the failure
signal) whenever fewer than two feature columns are present or fewer
than three distinct subjects exist, in particular on exactly two
subjects; when those preconditions hold and the Total column is present
it yields min 3 (subject count) clusters. -/
theorem claim_C6_clustering_preconditions (t : CombinedTable) :
    (availCount t < 2 ∨ (distinctSubjects t.rows).length < 3 → perform_clustering t = none) ∧
    ((distinctSubjects t.rows).length = 2 → perform_clustering t = none) ∧
    (t.rows ≠ [] → 2 ≤ availCount t → 3 ≤ (distinctSubjects t.rows).length →
      t.hasTotal = true →
      perform_clustering t = some (min 3 (distinctSubjects t.rows).length)) := by
  refine ⟨?_, ?_, ?_⟩
  · intro h
    unfold perform_clustering
    split
    · rfl
    · split
      · rfl
      · split
        · rfl
        · rename_i hne hav hsub
          exfalso
          rcases h with h | h
          · omega
          · omega
  · intro h
    unfold perform_clustering
    split
    · rfl
    · split
      · rfl
      · split
        · rfl
        · rename_i hne hav hsub
          omega
  · intro hne hav hsub htot
    have hEmpty : t.rows.isEmpty = false := by
      cases h : t.rows with
      | nil => exact absurd h hne
      | cons a l => rfl
    unfold perform_clustering
    rw [hEmpty]
    simp only [Bool.false_eq_true, if_false]
    rw [if_neg (by omega), if_neg (by omega), htot]
    simp

/-- Witness table for C6: three distinct subjects, all columns
present. -/
def tCluster : CombinedTable :=
  ⟨[⟨"Math", 10, 20, 0, 30, 7, "2023-24", "Semester 1"⟩,
    ⟨"Phys", 10, 20, 0, 30, 7, "2023-24", "Semester 1"⟩,
    ⟨"Chem", 10, 20, 0, 30, 7, "2023-24", "Semester 1"⟩], true, true, true, true, true⟩

/-- Witness table for C6 with only two distinct subjects. -/
def tCluster2 : CombinedTable :=
  ⟨[⟨"Math", 10, 20, 0, 30, 7, "2023-24", "Semester 1"⟩,
    ⟨"Phys", 10, 20, 0, 30, 7, "2023-24", "Semester 1"⟩], true, true, true, true, true⟩

/-- Witness for C6: two subjects fail, three subjects with all columns
yield three clusters. -/
theorem claim_C6_witness :
    ((distinctSubjects tCluster2.rows).length = 2 ∧ perform_clustering tCluster2 = none) ∧
    (tCluster.rows ≠ [] ∧ 2 ≤ availCount tCluster ∧
      3 ≤ (distinctSubjects tCluster.rows).length ∧ tCluster.hasTotal = true ∧
      perform_clustering tCluster = some (min 3 (distinctSubjects tCluster.rows).length)) :=
  ⟨⟨by decide, (claim_C6_clustering_preconditions tCluster2).2.1 (by decide)⟩,
   ⟨by decide, by decide, by decide, rfl,
    (claim_C6_clustering_preconditions tCluster).2.2 (by decide) (by decide) (by decide) rfl⟩⟩

/-- Example table refuting C6 as stated: the CA and ESE columns are
present (two feature columns) and three distinct subjects exist, yet
clustering fails, because the cluster-summary loop reads the absent
Total column. -/
def tNoTotal : CombinedTable :=
  ⟨[⟨"Math", 10, 20, 0, 0, 7, "2023-24", "Semester 1"⟩,
    ⟨"Phys", 12, 22, 0, 0, 7, "2023-24", "Semester 1"⟩,
    ⟨"Chem", 14, 24, 0, 0, 7, "2023-24", "Semester 1"⟩], true, true, false, false, true⟩

/-- Counterexample to C6 as stated: a table satisfying the claim's
preconditions (two feature columns present, three distinct subjects) on
which the clustering operation nevertheless fails instead of producing
min 3 (subject count) clusters. -/
theorem claim_C6_counterexample :
    2 ≤ availCount tNoTotal ∧ 3 ≤ (distinctSubjects tNoTotal.rows).length ∧
      tNoTotal.rows ≠ [] ∧ perform_clustering tNoTotal = none := by
  refine ⟨by decide, by decide, by decide, ?_⟩
  decide

/-- The performance bucket of a Total value, per the fixed thresholds of
`get_performance_categories`. -/
def bucketOf (q : ℚ) : String :=
  if 75 ≤ q then "High" else if 50 ≤ q then "Medium" else "Low"

lemma filter_partition_categories (l : List CRow) :
    (l.filter (fun r => decide (75 ≤ r.total))).length +
      (l.filter (fun r => decide (50 ≤ r.total) && decide (r.total < 75))).length +
      (l.filter (fun r => decide (r.total < 50))).length = l.length := by
  induction l with
  | nil => rfl
  | cons r rs ih =>
      by_cases h75 : (75 : ℚ) ≤ r.total
      · have h50 : (50 : ℚ) ≤ r.total := le_trans (by norm_num) h75
        simp only [List.filter_cons, decide_eq_true h75, decide_eq_true h50,
          decide_eq_false (not_lt.mpr h75), decide_eq_false (not_lt.mpr h50),
          Bool.and_false, if_true, if_false, Bool.false_eq_true, List.length_cons]
        omega
      · by_cases h50 : (50 : ℚ) ≤ r.total
        · simp only [List.filter_cons, decide_eq_false h75, decide_eq_true h50,
            decide_eq_true (not_le.mp h75), decide_eq_false (not_lt.mpr h50),
            Bool.true_and, if_true, if_false, Bool.false_eq_true, List.length_cons]
          omega
        · simp only [List.filter_cons, decide_eq_false h75, decide_eq_false h50,
            decide_eq_true (not_le.mp h50), Bool.false_and, if_true, if_false,
            Bool.false_eq_true, List.length_cons]
          omega

lemma high_filter_eq (l : List CRow) :
    l.filter (fun r => decide (75 ≤ r.total)) =
      l.filter (fun r => bucketOf r.total == "High") := by
  apply List.filter_congr
  intro a _
  by_cases h75 : (75 : ℚ) ≤ a.total
  · simp [bucketOf, h75]
  · by_cases h50 : (50 : ℚ) ≤ a.total
    · simp [bucketOf, h75, h50]
    · simp [bucketOf, h75, h50]

lemma medium_filter_eq (l : List CRow) :
    l.filter (fun r => decide (50 ≤ r.total) && decide (r.total < 75)) =
      l.filter (fun r => bucketOf r.total == "Medium") := by
  apply List.filter_congr
  intro a _
  by_cases h75 : (75 : ℚ) ≤ a.total
  · simp [bucketOf, h75, not_lt.mpr h75]
  · by_cases h50 : (50 : ℚ) ≤ a.total
    · simp [bucketOf, h75, h50, not_le.mp h75]
    · simp [bucketOf, h75, h50]

lemma low_filter_eq (l : List CRow) :
    l.filter (fun r => decide (r.total < 50)) =
      l.filter (fun r => bucketOf r.total == "Low") := by
  apply List.filter_congr
  intro a _
  by_cases h75 : (75 : ℚ) ≤ a.total
  · have h50 : (50 : ℚ) ≤ a.total := le_trans (by norm_num) h75
    simp [bucketOf, h75, not_lt.mpr h50]
  · by_cases h50 : (50 : ℚ) ≤ a.total
    · simp [bucketOf, h75, h50, not_lt.mpr h50]
    · simp [bucketOf, h75, h50, not_le.mp h50]

/-- C3: on a table with a Total column the three performance-category
counts sum to the number of rows, each count is exactly the number of
rows whose Total falls in the corresponding bucket, and the bucket
boundaries behave as claimed: 75 is High, 74.9 and 50 are Medium, 49.9
is Low. -/
theorem claim_C3_performance_categories (t : CombinedTable) (h : t.hasTotal = true) :
    (get_performance_categories t).high + (get_performance_categories t).medium +
        (get_performance_categories t).low = t.rows.length ∧
      (get_performance_categories t).high =
        (t.rows.filter (fun r => bucketOf r.total == "High")).length ∧
      (get_performance_categories t).medium =
        (t.rows.filter (fun r => bucketOf r.total == "Medium")).length ∧
      (get_performance_categories t).low =
        (t.rows.filter (fun r => bucketOf r.total == "Low")).length ∧
      bucketOf 75 = "High" ∧ bucketOf (749 / 10) = "Medium" ∧
      bucketOf 50 = "Medium" ∧ bucketOf (499 / 10) = "Low" := by
  have hbuckets : bucketOf 75 = "High" ∧ bucketOf (749 / 10) = "Medium" ∧
      bucketOf 50 = "Medium" ∧ bucketOf (499 / 10) = "Low" := by
    refine ⟨?_, ?_, ?_, ?_⟩ <;> simp [bucketOf] <;> norm_num
  by_cases hr : t.rows = []
  · refine ⟨?_, ?_, ?_, ?_, hbuckets.1, hbuckets.2.1, hbuckets.2.2.1, hbuckets.2.2.2⟩ <;>
      simp [get_performance_categories, hr]
  · have hEmpty : t.rows.isEmpty = false := by
      cases h' : t.rows with
      | nil => exact absurd h' hr
      | cons a l => rfl
    have hcat : get_performance_categories t =
        ⟨(t.rows.filter (fun r => decide (75 ≤ r.total))).length,
         (t.rows.filter (fun r => decide (50 ≤ r.total) && decide (r.total < 75))).length,
         (t.rows.filter (fun r => decide (r.total < 50))).length⟩ := by
      unfold get_performance_categories
      rw [hEmpty, h]
      simp
    refine ⟨?_, ?_, ?_, ?_, hbuckets.1, hbuckets.2.1, hbuckets.2.2.1, hbuckets.2.2.2⟩
    · rw [hcat]
      exact filter_partition_categories t.rows
    · rw [hcat]
      exact congrArg List.length (high_filter_eq t.rows)
    · rw [hcat]
      exact congrArg List.length (medium_filter_eq t.rows)
    · rw [hcat]
      exact congrArg List.length (low_filter_eq t.rows)

/-- Witness table for C3 containing a row at each threshold boundary
(the kernel does not evaluate rational division, so the witness rows use
the integer values 74 and 49 in place of the claimed 74.9 and 49.9; the
non-integer boundary values are covered by the proved bucketOf
equations, established by norm_num rather than kernel evaluation). -/
def tCat : CombinedTable :=
  ⟨[⟨"A", 0, 0, 0, 75, 7, "2023-24", "Semester 1"⟩,
    ⟨"B", 0, 0, 0, 74, 7, "2023-24", "Semester 1"⟩,
    ⟨"C", 0, 0, 0, 50, 7, "2023-24", "Semester 1"⟩,
    ⟨"D", 0, 0, 0, 49, 7, "2023-24", "Semester 1"⟩], true, true, true, true, true⟩

/-- Witness for C3 at the boundary-value table: counts High 1, Medium 2,
Low 1 summing to the 4 rows. -/
theorem claim_C3_witness :
    tCat.hasTotal = true ∧
      ((get_performance_categories tCat).high + (get_performance_categories tCat).medium +
          (get_performance_categories tCat).low = tCat.rows.length ∧
        (get_performance_categories tCat).high =
          (tCat.rows.filter (fun r => bucketOf r.total == "High")).length ∧
        (get_performance_categories tCat).medium =
          (tCat.rows.filter (fun r => bucketOf r.total == "Medium")).length ∧
        (get_performance_categories tCat).low =
          (tCat.rows.filter (fun r => bucketOf r.total == "Low")).length ∧
        bucketOf 75 = "High" ∧ bucketOf (749 / 10) = "Medium" ∧
        bucketOf 50 = "Medium" ∧ bucketOf (499 / 10) = "Low") ∧
      get_performance_categories tCat = ⟨1, 2, 1⟩ :=
  ⟨rfl, claim_C3_performance_categories tCat rfl, by decide⟩

lemma meanQ_pos {l : List ℚ} (hne : l ≠ []) (hpos : ∀ x ∈ l, 0 < x) : 0 < meanQ l := by
  unfold meanQ
  apply div_pos
  · exact List.sum_pos l hpos hne
  · exact_mod_cast List.length_pos.mpr hne

/-- C1: the average grade point is 0 exactly when the table is empty or
every per-semester first grade-point value is nonpositive; when some
value is positive it is the mean of the positive per-semester values. -/
theorem claim_C1_average_grade_point (t : CombinedTable) (h : t.hasSGPA = true) :
    (get_average_sgpa t = 0 ↔ t.rows = [] ∨ ∀ p ∈ groupFirstSGPA t.rows, p.2.2 ≤ 0) ∧
      ((∃ p ∈ groupFirstSGPA t.rows, 0 < p.2.2) →
        get_average_sgpa t =
          meanQ (((groupFirstSGPA t.rows).filter (fun p => decide (0 < p.2.2))).map
            (fun p => p.2.2))) := by
  by_cases hr : t.rows = []
  · constructor
    · constructor
      · intro _
        exact Or.inl hr
      · intro _
        simp [get_average_sgpa, hr]
    · rintro ⟨p, hp, _⟩
      rw [hr] at hp
      simp [groupFirstSGPA, groupFirstSGPAAux] at hp
  · have hEmpty : t.rows.isEmpty = false := by
      cases h' : t.rows with
      | nil => exact absurd h' hr
      | cons a l => rfl
    have hunf : get_average_sgpa t =
        (if ((groupFirstSGPA t.rows).filter (fun p => decide (0 < p.2.2))).isEmpty then 0
         else meanQ (((groupFirstSGPA t.rows).filter (fun p => decide (0 < p.2.2))).map
           (fun p => p.2.2))) := by
      unfold get_average_sgpa
      rw [hEmpty, h]
      simp
    by_cases hv : ((groupFirstSGPA t.rows).filter (fun p => decide (0 < p.2.2))) = []
    · have hz : get_average_sgpa t = 0 := by
        rw [hunf, hv]
        rfl
      constructor
      · constructor
        · intro _
          right
          intro p hp
          by_contra hlt
          push_neg at hlt
          have hmem : p ∈ (groupFirstSGPA t.rows).filter (fun p => decide (0 < p.2.2)) :=
            List.mem_filter.mpr ⟨hp, by simpa using hlt⟩
          rw [hv] at hmem
          exact absurd hmem (List.not_mem_nil p)
        · intro _
          exact hz
      · rintro ⟨p, hp, hpos⟩
        exfalso
        have hmem : p ∈ (groupFirstSGPA t.rows).filter (fun p => decide (0 < p.2.2)) :=
          List.mem_filter.mpr ⟨hp, by simpa using hpos⟩
        rw [hv] at hmem
        exact absurd hmem (List.not_mem_nil p)
    · have hvEmpty : ((groupFirstSGPA t.rows).filter (fun p => decide (0 < p.2.2))).isEmpty
          = false := by
        cases h' : ((groupFirstSGPA t.rows).filter (fun p => decide (0 < p.2.2))) with
        | nil => exact absurd h' hv
        | cons a l => rfl
      have hmean : get_average_sgpa t =
          meanQ (((groupFirstSGPA t.rows).filter (fun p => decide (0 < p.2.2))).map
            (fun p => p.2.2)) := by
        rw [hunf, hvEmpty]
        rfl
      have hmpos : 0 < meanQ (((groupFirstSGPA t.rows).filter
          (fun p => decide (0 < p.2.2))).map (fun p => p.2.2)) := by
        apply meanQ_pos
        · intro hmap
          exact hv (List.map_eq_nil_iff.mp hmap)
        · intro x hx
          rcases List.mem_map.mp hx with ⟨p, hp, hpx⟩
          have := (List.mem_filter.mp hp).2
          rw [← hpx]
          exact of_decide_eq_true this
      constructor
      · constructor
        · intro h0
          rw [hmean] at h0
          exact absurd h0 (ne_of_gt hmpos)
        · rintro (hrr | hall)
          · exact absurd hrr hr
          · exfalso
            rcases List.exists_mem_of_ne_nil _ hv with ⟨p, hp⟩
            have hmem := List.mem_filter.mp hp
            have hpos := of_decide_eq_true hmem.2
            exact absurd (hall p hmem.1) (not_le.mpr hpos)
      · intro _
        exact hmean

/-- Witness table for C1: two semesters with grade points 8 and 0; the
0 semester is discarded and the average is 8. -/
def tAvg : CombinedTable :=
  ⟨[⟨"Math", 1, 2, 3, 6, 8, "2023-24", "Semester 1"⟩,
    ⟨"Phys", 1, 2, 3, 6, 0, "2023-24", "Semester 2"⟩], true, true, true, true, true⟩

/-- Witness for C1 at a table with one positive and one zero semester
grade point. -/
theorem claim_C1_witness :
    tAvg.hasSGPA = true ∧
      ((get_average_sgpa tAvg = 0 ↔
          tAvg.rows = [] ∨ ∀ p ∈ groupFirstSGPA tAvg.rows, p.2.2 ≤ 0) ∧
        ((∃ p ∈ groupFirstSGPA tAvg.rows, 0 < p.2.2) →
          get_average_sgpa tAvg =
            meanQ (((groupFirstSGPA tAvg.rows).filter (fun p => decide (0 < p.2.2))).map
              (fun p => p.2.2)))) :=
  ⟨rfl, claim_C1_average_grade_point tAvg rfl⟩

lemma foldl_best_mem (cmp : ℚ → ℚ → Bool) (l : List (String × String × ℚ))
    (x : String × String × ℚ) :
    l.foldl (fun b a => if cmp a.2.2 b.2.2 then a else b) x ∈ x :: l := by
  induction l generalizing x with
  | nil => exact List.mem_singleton.mpr rfl
  | cons a l ih =>
      rw [List.foldl_cons]
      have step := ih (if cmp a.2.2 x.2.2 then a else x)
      rcases List.mem_cons.mp step with h1 | h2
      · rw [h1]
        by_cases hc : cmp a.2.2 x.2.2 = true
        · rw [if_pos hc]
          exact List.mem_cons.mpr (Or.inr (List.mem_cons_self a l))
        · rw [if_neg hc]
          exact List.mem_cons_self x (a :: l)
      · exact List.mem_cons.mpr (Or.inr (List.mem_cons.mpr (Or.inr h2)))

lemma firstBest_mem (cmp : ℚ → ℚ → Bool) (l : List (String × String × ℚ)) (hne : l ≠ []) :
    ∃ p, firstBest cmp l = some p ∧ p ∈ l := by
  cases l with
  | nil => exact absurd rfl hne
  | cons x xs =>
      exact ⟨_, rfl, foldl_best_mem cmp xs x⟩

/-- C9: the best and worst semester operations draw only from the
per-semester grade-point candidates that are strictly positive, format
the chosen key as "year - term", and return "N/A" when no candidate is
positive; in particular neither ever returns a semester whose value is
nonpositive. -/
theorem claim_C9_best_worst_semesters (t : CombinedTable) (h : t.hasSGPA = true) :
    ((groupFirstSGPA t.rows).filter (fun p => decide (0 < p.2.2)) = [] →
      get_best_semester t = "N/A" ∧ get_worst_semester t = "N/A") ∧
    ((groupFirstSGPA t.rows).filter (fun p => decide (0 < p.2.2)) ≠ [] →
      (∃ p ∈ (groupFirstSGPA t.rows).filter (fun p => decide (0 < p.2.2)),
        0 < p.2.2 ∧ get_best_semester t = p.1 ++ " - " ++ p.2.1) ∧
      (∃ p ∈ (groupFirstSGPA t.rows).filter (fun p => decide (0 < p.2.2)),
        0 < p.2.2 ∧ get_worst_semester t = p.1 ++ " - " ++ p.2.1)) := by
  by_cases hr : t.rows = []
  · constructor
    · intro _
      constructor <;> simp [get_best_semester, get_worst_semester, hr]
    · intro hne
      exfalso
      apply hne
      rw [hr]
      rfl
  · have hEmpty : t.rows.isEmpty = false := by
      cases h' : t.rows with
      | nil => exact absurd h' hr
      | cons a l => rfl
    constructor
    · intro hv
      constructor <;>
        simp [get_best_semester, get_worst_semester, hEmpty, h, hv, firstBest]
    · intro hv
      obtain ⟨p, hfb, hpmem⟩ := firstBest_mem (fun a b => decide (b < a)) _ hv
      obtain ⟨q, hfq, hqmem⟩ := firstBest_mem (fun a b => decide (a < b)) _ hv
      constructor
      · refine ⟨p, hpmem, of_decide_eq_true (List.mem_filter.mp hpmem).2, ?_⟩
        unfold get_best_semester
        rw [hEmpty, h]
        simp only [Bool.not_true, Bool.or_false]
        rw [if_neg (by simp)]
        rw [hfb]
      · refine ⟨q, hqmem, of_decide_eq_true (List.mem_filter.mp hqmem).2, ?_⟩
        unfold get_worst_semester
        rw [hEmpty, h]
        simp only [Bool.not_true, Bool.or_false]
        rw [if_neg (by simp)]
        rw [hfq]

/-- Witness for C9 at a table with semesters valued 8, 0 and 5: the
positive-candidate set is nonempty and both selections land in it. -/
def tBest : CombinedTable :=
  ⟨[⟨"Math", 1, 2, 3, 6, 8, "2023-24", "Semester 1"⟩,
    ⟨"Phys", 1, 2, 3, 6, 0, "2023-24", "Semester 2"⟩,
    ⟨"Chem", 1, 2, 3, 6, 5, "2024-25", "Semester 3"⟩], true, true, true, true, true⟩

/-- Witness for C9: nonempty candidate set, both operations return
formatted positive-valued semesters, concretely best "2023-24 -
Semester 1" and worst "2024-25 - Semester 3". -/
theorem claim_C9_witness :
    tBest.hasSGPA = true ∧
      (groupFirstSGPA tBest.rows).filter (fun p => decide (0 < p.2.2)) ≠ [] ∧
      ((∃ p ∈ (groupFirstSGPA tBest.rows).filter (fun p => decide (0 < p.2.2)),
          0 < p.2.2 ∧ get_best_semester tBest = p.1 ++ " - " ++ p.2.1) ∧
        (∃ p ∈ (groupFirstSGPA tBest.rows).filter (fun p => decide (0 < p.2.2)),
          0 < p.2.2 ∧ get_worst_semester tBest = p.1 ++ " - " ++ p.2.1)) ∧
      get_best_semester tBest = "2023-24 - Semester 1" ∧
      get_worst_semester tBest = "2024-25 - Semester 3" :=
  ⟨rfl, by decide,
    (claim_C9_best_worst_semesters tBest rfl).2 (by decide), by decide, by decide⟩

/-- C10: the improvement-suggestions operation always returns a
non-empty list: the fallback message on the empty table (the same text
the source's exception handler returns on an internal error), the
generic encouragement when no heuristic fires on non-empty data, and
the heuristics' output otherwise. -/
theorem claim_C10_suggestions_nonempty (t : CombinedTable) :
    (t.rows = [] → get_improvement_suggestions t =
      ["Upload more data to get personalized suggestions"]) ∧
    get_improvement_suggestions t ≠ [] ∧
    (t.rows ≠ [] → suggestionsCore t = [] →
      get_improvement_suggestions t =
        ["Keep up the good work! Continue consistent performance across all subjects"]) := by
  by_cases hr : t.rows = []
  · refine ⟨fun _ => by simp [get_improvement_suggestions, hr], ?_, fun hne _ => absurd hr hne⟩
    simp [get_improvement_suggestions, hr]
  · have hEmpty : t.rows.isEmpty = false := by
      cases h' : t.rows with
      | nil => exact absurd h' hr
      | cons a l => rfl
    by_cases hs : suggestionsCore t = []
    · refine ⟨fun hc => absurd hc hr, ?_, fun _ _ => ?_⟩ <;>
        simp [get_improvement_suggestions, hEmpty, hs]
    · have hsEmpty : (suggestionsCore t).isEmpty = false := by
        cases h' : suggestionsCore t with
        | nil => exact absurd h' hs
        | cons a l => rfl
      refine ⟨fun hc => absurd hc hr, ?_, fun _ hc => absurd hc hs⟩
      have : get_improvement_suggestions t = suggestionsCore t := by
        unfold get_improvement_suggestions
        simp [hEmpty, hsEmpty]
      rw [this]
      exact hs

/-- Witness table for C10 on which no heuristic fires: equal CA and ESE
means, a single subject exactly at the mean, and a zero average grade
point. -/
def tSugg : CombinedTable :=
  ⟨[⟨"Math", 5, 5, 0, 50, 0, "2023-24", "Semester 1"⟩], true, true, true, true, true⟩

/-- The empty table used by the C10 witness. -/
def tEmptyTable : CombinedTable := ⟨[], true, true, true, true, true⟩

lemma tSugg_core_empty : suggestionsCore tSugg = [] := by
  norm_num [suggestionsCore, subject_wise_average_total, groupTotalsBySubject,
    groupTotalsAux, meanQ, round2, roundHalfEven, get_average_sgpa, groupFirstSGPA,
    groupFirstSGPAAux, availCount, tSugg]

/-- Witness for C10: the empty table yields the fallback message, and a
table firing no heuristic yields the generic encouragement. -/
theorem claim_C10_witness :
    get_improvement_suggestions tEmptyTable =
      ["Upload more data to get personalized suggestions"] ∧
    get_improvement_suggestions tSugg ≠ [] ∧
    get_improvement_suggestions tSugg =
      ["Keep up the good work! Continue consistent performance across all subjects"] :=
  ⟨(claim_C10_suggestions_nonempty tEmptyTable).1 rfl,
   (claim_C10_suggestions_nonempty tSugg).2.1,
   (claim_C10_suggestions_nonempty tSugg).2.2 (by decide) tSugg_core_empty⟩

lemma sortedTrendPairs_sorted (ud : List SemRecord) :
    List.Sorted (fun a b : ℕ × ℚ => a.1 ≤ b.1) (sortedTrendPairs ud) := by
  haveI : IsTotal (ℕ × ℚ) (fun a b => a.1 ≤ b.1) := ⟨fun a b => Nat.le_total a.1 b.1⟩
  haveI : IsTrans (ℕ × ℚ) (fun a b => a.1 ≤ b.1) := ⟨fun _ _ _ => Nat.le_trans⟩
  exact List.sorted_insertionSort _ _

lemma sortedTrendPairs_perm (ud : List SemRecord) :
    List.Perm (sortedTrendPairs ud)
      (ud.map (fun r => (extract_semester_number r.semester, recordSGPA r))) :=
  List.perm_insertionSort _ _

/-- C4: trend analysis sorts the per-record grade-point pairs by
extracted semester number ascending (a permutation of the input pairs);
with at least two points the recent trend is "improving" exactly when
the last value strictly exceeds the second-to-last and the overall trend
is "improving" exactly when the last strictly exceeds the first, both
"declining" otherwise including ties; with fewer than two points both
trends are "stable". -/
theorem claim_C4_trend_analysis (ud : List SemRecord) (res : TrendResult)
    (h : get_trend_analysis ud = some res) :
    List.Sorted (fun a b : ℕ × ℚ => a.1 ≤ b.1) (sortedTrendPairs ud) ∧
    List.Perm (sortedTrendPairs ud)
      (ud.map (fun r => (extract_semester_number r.semester, recordSGPA r))) ∧
    res.sgpa_values = trendPoints ud ∧
    (2 ≤ (trendPoints ud).length →
      (res.recent_trend = "improving" ↔
        ((trendPoints ud).dropLast).getLastD 0 < (trendPoints ud).getLastD 0) ∧
      (res.recent_trend = "declining" ↔
        ¬((trendPoints ud).dropLast).getLastD 0 < (trendPoints ud).getLastD 0) ∧
      (res.overall_trend = "improving" ↔
        (trendPoints ud).headD 0 < (trendPoints ud).getLastD 0) ∧
      (res.overall_trend = "declining" ↔
        ¬(trendPoints ud).headD 0 < (trendPoints ud).getLastD 0)) ∧
    ((trendPoints ud).length < 2 →
      res.recent_trend = "stable" ∧ res.overall_trend = "stable") := by
  cases hc : (combinedSubjectRows ud).isEmpty with
  | true =>
      unfold get_trend_analysis at h
      rw [hc] at h
      simp at h
  | false =>
      unfold get_trend_analysis at h
      rw [hc] at h
      simp only [Bool.false_eq_true, if_false, Option.some.injEq] at h
      refine ⟨sortedTrendPairs_sorted ud, sortedTrendPairs_perm ud, ?_, ?_, ?_⟩
      · rw [← h]
      · intro h2
        rw [← h]
        simp only [if_pos h2]
        by_cases hlt : ((trendPoints ud).dropLast).getLastD 0 < (trendPoints ud).getLastD 0
        · by_cases hov : (trendPoints ud).headD 0 < (trendPoints ud).getLastD 0 <;>
            simp [hlt, hov]
        · by_cases hov : (trendPoints ud).headD 0 < (trendPoints ud).getLastD 0 <;>
            simp [hlt, hov]
      · intro h2
        rw [← h]
        simp [Nat.not_le.mpr h2]

/-- Records with rising grade points 5 then 7 for the C4 witness. -/
def udTrend : List SemRecord :=
  [⟨"2023-24", "Semester 1", [⟨"Math", 1, 2, 3, 6, 5⟩]⟩,
   ⟨"2023-24", "Semester 2", [⟨"Math", 1, 2, 3, 6, 7⟩]⟩]

/-- The trend result for the C4 witness records. -/
def resTrend : TrendResult :=
  ⟨trendPoints udTrend, "improving", "improving", listMaxQ (trendPoints udTrend),
    listMinQ (trendPoints udTrend), meanQ (trendPoints udTrend)⟩

/-- Witness for C4 at the rising two-semester history, whose two trends
are both "improving". -/
theorem claim_C4_witness :
    get_trend_analysis udTrend = some resTrend ∧
    (List.Sorted (fun a b : ℕ × ℚ => a.1 ≤ b.1) (sortedTrendPairs udTrend) ∧
      List.Perm (sortedTrendPairs udTrend)
        (udTrend.map (fun r => (extract_semester_number r.semester, recordSGPA r))) ∧
      resTrend.sgpa_values = trendPoints udTrend ∧
      (2 ≤ (trendPoints udTrend).length →
        (resTrend.recent_trend = "improving" ↔
          ((trendPoints udTrend).dropLast).getLastD 0 < (trendPoints udTrend).getLastD 0) ∧
        (resTrend.recent_trend = "declining" ↔
          ¬((trendPoints udTrend).dropLast).getLastD 0 < (trendPoints udTrend).getLastD 0) ∧
        (resTrend.overall_trend = "improving" ↔
          (trendPoints udTrend).headD 0 < (trendPoints udTrend).getLastD 0) ∧
        (resTrend.overall_trend = "declining" ↔
          ¬(trendPoints udTrend).headD 0 < (trendPoints udTrend).getLastD 0)) ∧
      ((trendPoints udTrend).length < 2 →
        resTrend.recent_trend = "stable" ∧ resTrend.overall_trend = "stable")) ∧
    trendPoints udTrend = [5, 7] ∧ 2 ≤ (trendPoints udTrend).length ∧
    resTrend.recent_trend = "improving" ∧ resTrend.overall_trend = "improving" :=
  ⟨rfl, claim_C4_trend_analysis udTrend resTrend rfl, by decide, by decide, rfl, rfl⟩

lemma cleanRow_some {f : RawCSV} {r : RawRow} {row : SubjectRow}
    (h : cleanRow f r = some row) :
    ∃ s, r.subject = some s ∧ pyStrip s ≠ "" ∧
      row = ⟨s, ingestCell f.hasCA r.ca, ingestCell f.hasESE r.ese,
        ingestCell f.hasLab r.lab, ingestCell f.hasTotal r.tot,
        ingestCell f.hasSGPA r.sg⟩ := by
  unfold cleanRow at h
  split at h
  next => simp at h
  next s heq =>
    by_cases hb : pyStrip s = ""
    · rw [if_pos hb] at h
      simp at h
    · rw [if_neg hb] at h
      simp only [Option.some.injEq] at h
      exact ⟨s, heq, hb, h.symm⟩

lemma filterMap_cleanRow_length (f : RawCSV) (l : List RawRow) :
    (l.filterMap (cleanRow f)).length =
      (l.filter (fun r =>
        match r.subject with
        | none => false
        | some s => pyStrip s != "")).length := by
  induction l with
  | nil => rfl
  | cons r rs ih =>
      rw [List.filterMap_cons, List.filter_cons]
      cases hs : r.subject with
      | none => simp [cleanRow, hs, ih]
      | some s =>
          by_cases hb : pyStrip s = ""
          · simp [cleanRow, hs, hb, ih]
          · simp [cleanRow, hs, hb, ih]

/-- C7: the tabular ingestion adapter fails exactly when the Subject
column is absent; otherwise every surviving row has a nonblank subject,
the surviving rows are exactly the input rows with a present, nonblank
subject, each row is the total numeric coercion of its cells with absent
columns reading 0, and coercion of an unparseable cell such as "abc"
yields 0 rather than an error. -/
theorem claim_C7_csv_ingestion (f : RawCSV) :
    (parse_csv_file f = none ↔ f.hasSubject = false) ∧
    (∀ out, parse_csv_file f = some out →
      (∀ row ∈ out, pyStrip row.subject ≠ "") ∧
      (∀ row ∈ out, ∃ r ∈ f.rows, ∃ s, r.subject = some s ∧ pyStrip s ≠ "" ∧
        row = ⟨s, ingestCell f.hasCA r.ca, ingestCell f.hasESE r.ese,
          ingestCell f.hasLab r.lab, ingestCell f.hasTotal r.tot,
          ingestCell f.hasSGPA r.sg⟩) ∧
      out.length = (f.rows.filter (fun r =>
        match r.subject with
        | none => false
        | some s => pyStrip s != "")).length ∧
      (f.hasCA = false → ∀ row ∈ out, row.ca_marks = 0) ∧
      (f.hasESE = false → ∀ row ∈ out, row.ese_marks = 0) ∧
      (f.hasLab = false → ∀ row ∈ out, row.lab_marks = 0) ∧
      (f.hasTotal = false → ∀ row ∈ out, row.total = 0) ∧
      (f.hasSGPA = false → ∀ row ∈ out, row.sgpa = 0)) ∧
    (∀ s, parseNumQ s = none → coerceNum (some s) = 0) ∧
    coerceNum (some "abc") = 0 ∧ coerceNum none = 0 := by
  have hcoerce : ∀ s, parseNumQ s = none → coerceNum (some s) = 0 := by
    intro s hs
    show (parseNumQ s).getD 0 = 0
    rw [hs]
    rfl
  have habc : coerceNum (some "abc") = 0 := by decide
  refine ⟨?_, ?_, hcoerce, habc, rfl⟩
  · cases hsub : f.hasSubject with
    | false => simp [parse_csv_file, hsub]
    | true => simp [parse_csv_file, hsub]
  · intro out hout
    have hsub : f.hasSubject = true := by
      cases hsub : f.hasSubject with
      | false => rw [parse_csv_file, hsub] at hout; simp at hout
      | true => rfl
    have hout2 : out = f.rows.filterMap (cleanRow f) := by
      rw [parse_csv_file, hsub] at hout
      simp only [Bool.not_true, Bool.false_eq_true, if_false, Option.some.injEq] at hout
      exact hout.symm
    subst hout2
    have hmem : ∀ row ∈ f.rows.filterMap (cleanRow f), ∃ r ∈ f.rows, ∃ s,
        r.subject = some s ∧ pyStrip s ≠ "" ∧
        row = ⟨s, ingestCell f.hasCA r.ca, ingestCell f.hasESE r.ese,
          ingestCell f.hasLab r.lab, ingestCell f.hasTotal r.tot,
          ingestCell f.hasSGPA r.sg⟩ := by
      intro row hrow
      rcases List.mem_filterMap.mp hrow with ⟨r, hr, hcr⟩
      rcases cleanRow_some hcr with ⟨s, hs1, hs2, hs3⟩
      exact ⟨r, hr, s, hs1, hs2, hs3⟩
    refine ⟨?_, hmem, filterMap_cleanRow_length f f.rows, ?_, ?_, ?_, ?_, ?_⟩
    · intro row hrow
      rcases hmem row hrow with ⟨r, _, s, _, hs2, hs3⟩
      rw [hs3]
      exact hs2
    all_goals
      intro hflag row hrow
    all_goals
      rcases hmem row hrow with ⟨r, _, s, _, _, hs3⟩
    all_goals
      rw [hs3]
    all_goals
      simp [ingestCell, hflag]

/-- Witness file for C7: the CA column is absent, one ESE cell is the
unparseable "abc", one subject cell is blank and one is missing. -/
def fCSV : RawCSV :=
  ⟨true, false, true, true, true, true,
   [⟨some "Math", some "1", some "abc", some "3", some "50", some "8"⟩,
    ⟨some "  ", some "1", some "2", some "3", some "4", some "5"⟩,
    ⟨none, some "1", some "2", some "3", some "4", some "5"⟩]⟩

/-- Witness for C7: the adapter keeps only the Math row, zeroes the
absent CA column and the unparseable ESE cell. -/
theorem claim_C7_witness :
    ((parse_csv_file fCSV = none ↔ fCSV.hasSubject = false) ∧
      (∀ out, parse_csv_file fCSV = some out →
        (∀ row ∈ out, pyStrip row.subject ≠ "") ∧
        (∀ row ∈ out, ∃ r ∈ fCSV.rows, ∃ s, r.subject = some s ∧ pyStrip s ≠ "" ∧
          row = ⟨s, ingestCell fCSV.hasCA r.ca, ingestCell fCSV.hasESE r.ese,
            ingestCell fCSV.hasLab r.lab, ingestCell fCSV.hasTotal r.tot,
            ingestCell fCSV.hasSGPA r.sg⟩) ∧
        out.length = (fCSV.rows.filter (fun r =>
          match r.subject with
          | none => false
          | some s => pyStrip s != "")).length ∧
        (fCSV.hasCA = false → ∀ row ∈ out, row.ca_marks = 0) ∧
        (fCSV.hasESE = false → ∀ row ∈ out, row.ese_marks = 0) ∧
        (fCSV.hasLab = false → ∀ row ∈ out, row.lab_marks = 0) ∧
        (fCSV.hasTotal = false → ∀ row ∈ out, row.total = 0) ∧
        (fCSV.hasSGPA = false → ∀ row ∈ out, row.sgpa = 0)) ∧
      (∀ s, parseNumQ s = none → coerceNum (some s) = 0) ∧
      coerceNum (some "abc") = 0 ∧ coerceNum none = 0) ∧
    parse_csv_file fCSV = some [⟨"Math", 0, 0, 3, 50, 8⟩] :=
  ⟨claim_C7_csv_ingestion fCSV, by decide⟩

lemma extract_eq_none_iff (text : String) :
    extract_results_from_text text = none ↔
      ∀ line ∈ splitLines text, processLine (sgpaDefault text) line = none := by
  have hunf : extract_results_from_text text =
      (if ((splitLines text).filterMap (processLine (sgpaDefault text))).isEmpty then none
       else some ((splitLines text).filterMap (processLine (sgpaDefault text)))) := rfl
  rw [hunf]
  cases hres : (splitLines text).filterMap (processLine (sgpaDefault text)) with
  | nil =>
      simp only [List.isEmpty_nil, if_true]
      constructor
      · intro _
        exact List.filterMap_eq_nil_iff.mp hres
      · intro _
        trivial
  | cons a l =>
      simp only [List.isEmpty_cons, Bool.false_eq_true, if_false]
      constructor
      · intro h
        exact absurd h (by simp)
      · intro h
        exfalso
        have hmem : a ∈ (splitLines text).filterMap (processLine (sgpaDefault text)) := by
          rw [hres]
          exact List.mem_cons_self a l
        rcases List.mem_filterMap.mp hmem with ⟨line, hl, hp⟩
        rw [h line hl] at hp
        exact absurd hp (by simp)

lemma intField_digit {caps : List (ℕ × String)} {n : ℕ} {g : String}
    (hg : getGroup caps n = some g) (hd : pyIsDigit g = true) :
    intField caps n = ((natOfDigits g : ℚ)) := by
  unfold intField
  rw [hg]
  show (if pyIsDigit g = true then ((natOfDigits g : ℚ)) else 0) = _
  rw [if_pos hd]

lemma intField_nondigit {caps : List (ℕ × String)} {n : ℕ} {g : String}
    (hg : getGroup caps n = some g) (hd : pyIsDigit g = false) :
    intField caps n = 0 := by
  unfold intField
  rw [hg]
  show (if pyIsDigit g = true then ((natOfDigits g : ℚ)) else 0) = _
  rw [if_neg (by rw [hd]; exact Bool.false_ne_true)]

/-- C8: the text extraction adapter fails exactly when no line yields a
row; each line tries the three patterns in order and the first pattern
producing a non-header match supplies the row; CA/ESE/Lab come from
integer parsing of captures 2 to 4 with 0 for non-digit captures; the
Total is capture 5 when present and all digits and the sum CA+ESE+Lab
otherwise; the grade point is capture 6 when a valid decimal and the
document-level default otherwise, a default of 0 when no SGPA token
occurs in the text. -/
theorem claim_C8_text_extraction (text : String) :
    (extract_results_from_text text = none ↔
      ∀ line ∈ splitLines text, processLine (sgpaDefault text) line = none) ∧
    (∀ d line row, processLine d line = some row →
      10 ≤ (pyStrip line).length ∧
      (rowFromPat pat1 d (pyStrip line) = some row ∨
        (rowFromPat pat1 d (pyStrip line) = none ∧
          rowFromPat pat2 d (pyStrip line) = some row) ∨
        (rowFromPat pat1 d (pyStrip line) = none ∧
          rowFromPat pat2 d (pyStrip line) = none ∧
          rowFromPat pat3 d (pyStrip line) = some row))) ∧
    (∀ caps d,
      (∀ g, getGroup caps 2 = some g → pyIsDigit g = true →
        (mkRow caps d).ca_marks = ((natOfDigits g : ℚ))) ∧
      (∀ g, getGroup caps 2 = some g → pyIsDigit g = false → (mkRow caps d).ca_marks = 0) ∧
      (∀ g, getGroup caps 3 = some g → pyIsDigit g = true →
        (mkRow caps d).ese_marks = ((natOfDigits g : ℚ))) ∧
      (∀ g, getGroup caps 3 = some g → pyIsDigit g = false → (mkRow caps d).ese_marks = 0) ∧
      (∀ g, getGroup caps 4 = some g → pyIsDigit g = true →
        (mkRow caps d).lab_marks = ((natOfDigits g : ℚ))) ∧
      (∀ g, getGroup caps 4 = some g → pyIsDigit g = false → (mkRow caps d).lab_marks = 0) ∧
      (∀ g, getGroup caps 5 = some g → pyIsDigit g = true →
        (mkRow caps d).total = ((natOfDigits g : ℚ))) ∧
      (∀ g, getGroup caps 5 = some g → pyIsDigit g = false →
        (mkRow caps d).total =
          (mkRow caps d).ca_marks + (mkRow caps d).ese_marks + (mkRow caps d).lab_marks) ∧
      (getGroup caps 5 = none →
        (mkRow caps d).total =
          (mkRow caps d).ca_marks + (mkRow caps d).ese_marks + (mkRow caps d).lab_marks) ∧
      (∀ g, getGroup caps 6 = some g → pyValidDec g = true →
        (mkRow caps d).sgpa = parseFloatDec g) ∧
      (∀ g, getGroup caps 6 = some g → pyValidDec g = false → (mkRow caps d).sgpa = d) ∧
      (getGroup caps 6 = none → (mkRow caps d).sgpa = d)) ∧
    (research sgpaTokenRE text.toList = none → sgpaDefault text = 0) := by
  refine ⟨extract_eq_none_iff text, ?_, ?_, ?_⟩
  · intro d line row h
    unfold processLine at h
    by_cases hlen : (pyStrip line).length < 10
    · rw [if_pos hlen] at h
      exact absurd h (by simp)
    · rw [if_neg hlen] at h
      refine ⟨Nat.not_lt.mp hlen, ?_⟩
      cases h1 : rowFromPat pat1 d (pyStrip line) with
      | some r =>
          rw [h1] at h
          have h' : some r = some row := h
          exact Or.inl h'
      | none =>
          have hInner : (match rowFromPat pat2 d (pyStrip line) with
              | some r => some r
              | none => rowFromPat pat3 d (pyStrip line)) = some row := by
            rw [h1] at h
            exact h
          cases h2 : rowFromPat pat2 d (pyStrip line) with
          | some r =>
              rw [h2] at hInner
              have h' : some r = some row := hInner
              exact Or.inr (Or.inl ⟨rfl, h'⟩)
          | none =>
              rw [h2] at hInner
              have h' : rowFromPat pat3 d (pyStrip line) = some row := hInner
              exact Or.inr (Or.inr ⟨rfl, rfl, h'⟩)
  · intro caps d
    refine ⟨?_, ?_, ?_, ?_, ?_, ?_, ?_, ?_, ?_, ?_, ?_, ?_⟩
    · intro g hg hd
      exact intField_digit hg hd
    · intro g hg hd
      exact intField_nondigit hg hd
    · intro g hg hd
      exact intField_digit hg hd
    · intro g hg hd
      exact intField_nondigit hg hd
    · intro g hg hd
      exact intField_digit hg hd
    · intro g hg hd
      exact intField_nondigit hg hd
    · intro g hg hd
      show (match getGroup caps 5 with
        | some g => if pyIsDigit g then ((natOfDigits g : ℚ))
            else intField caps 2 + intField caps 3 + intField caps 4
        | none => intField caps 2 + intField caps 3 + intField caps 4) = _
      rw [hg]
      show (if pyIsDigit g = true then ((natOfDigits g : ℚ))
        else intField caps 2 + intField caps 3 + intField caps 4) = _
      rw [if_pos hd]
    · intro g hg hd
      show (match getGroup caps 5 with
        | some g => if pyIsDigit g then ((natOfDigits g : ℚ))
            else intField caps 2 + intField caps 3 + intField caps 4
        | none => intField caps 2 + intField caps 3 + intField caps 4) = _
      rw [hg]
      show (if pyIsDigit g = true then ((natOfDigits g : ℚ))
        else intField caps 2 + intField caps 3 + intField caps 4) = _
      rw [if_neg (by rw [hd]; exact Bool.false_ne_true)]
      rfl
    · intro hg
      show (match getGroup caps 5 with
        | some g => if pyIsDigit g then ((natOfDigits g : ℚ))
            else intField caps 2 + intField caps 3 + intField caps 4
        | none => intField caps 2 + intField caps 3 + intField caps 4) = _
      rw [hg]
      rfl
    · intro g hg hd
      show (match getGroup caps 6 with
        | some g => if pyValidDec g then parseFloatDec g else d
        | none => d) = _
      rw [hg]
      show (if pyValidDec g = true then parseFloatDec g else d) = _
      rw [if_pos hd]
    · intro g hg hd
      show (match getGroup caps 6 with
        | some g => if pyValidDec g then parseFloatDec g else d
        | none => d) = _
      rw [hg]
      show (if pyValidDec g = true then parseFloatDec g else d) = _
      rw [if_neg (by rw [hd]; exact Bool.false_ne_true)]
    · intro hg
      show (match getGroup caps 6 with
        | some g => if pyValidDec g then parseFloatDec g else d
        | none => d) = _
      rw [hg]
  · intro h
    unfold sgpaDefault
    rw [h]

/-- Witness text for C8: a header line, one data line matching the most
specific pattern, and a document-level SGPA token. -/
def textW : String := "Total Marks Heading\nMath 10 20 30 60 7\nSGPA: 8"

/-- The row extracted from the witness text's data line. -/
def rowW : SubjectRow := ⟨"Math", 10, 20, 30, 60, 7⟩

/-- Witness for C8: the data line is long enough and pattern 1 wins on
it, the whole text extracts exactly that row, and the document-level
default is 8. -/
theorem claim_C8_witness :
    (10 ≤ (pyStrip "Math 10 20 30 60 7").length ∧
      (rowFromPat pat1 8 (pyStrip "Math 10 20 30 60 7") = some rowW ∨
        (rowFromPat pat1 8 (pyStrip "Math 10 20 30 60 7") = none ∧
          rowFromPat pat2 8 (pyStrip "Math 10 20 30 60 7") = some rowW) ∨
        (rowFromPat pat1 8 (pyStrip "Math 10 20 30 60 7") = none ∧
          rowFromPat pat2 8 (pyStrip "Math 10 20 30 60 7") = none ∧
          rowFromPat pat3 8 (pyStrip "Math 10 20 30 60 7") = some rowW))) ∧
    processLine 8 "Math 10 20 30 60 7" = some rowW ∧
    extract_results_from_text textW = some [rowW] ∧
    sgpaDefault textW = 8 :=
  ⟨(claim_C8_text_extraction textW).2.1 8 "Math 10 20 30 60 7" rowW (by decide),
   by decide, by decide, by decide⟩
